import Mathlib

/-!
A shallow embedding of `src/index.js` of the SoundClaude backend.

Modelling conventions, used throughout:
* JS numbers are modelled exactly: vector components and their arithmetic over
  `ℚ` (every finite JS float is a rational), computed cosine scores over `ℝ`
  (because of `Math.sqrt`), and the JS value `NaN` as `none : Option ℝ`.
* A JS object used only through `Object.values` is modelled as its list of
  values in the object's (insertion-order) key iteration order.
* A JS value that may be `undefined` is modelled as an `Option`.
* Async control flow is sequential; a rejected promise / thrown error is
  `Except.error`.  External collaborators (analysis service, embedding model,
  payload fetch, blob upload, document store) are oracles supplied in an
  environment record.
-/

namespace SoundClaude

/-- Summed squares of a vector, `vec.reduce((sum, val) => sum + val * val, 0)`;
the argument of `Math.sqrt` in the magnitude computations of
`cosineSimilarity` (src/index.js lines 72-73). -/
def sumSq (l : List ℚ) : ℚ := l.foldl (fun s v => s + v * v) 0

/-- Dot product `vecA.reduce((sum, val, i) => sum + val * vecB[i], 0)`
(src/index.js line 71).  The reduction runs over the indices of `vecA`; when
`vecA` is longer than `vecB`, the access `vecB[i]` is `undefined` for the
trailing indices, `val * undefined` is `NaN`, and the whole sum is `NaN`
(modelled `none`).  When `vecA` is not longer, only the first
`vecA.length` entries of `vecB` are touched, which `List.zip` captures. -/
def dotProd (a b : List ℚ) : Option ℚ :=
  if a.length ≤ b.length then some ((a.zip b).foldl (fun s p => s + p.1 * p.2) 0) else none

/-- Cosine similarity `dot / (magA * magB)` (src/index.js lines 70-75), with
`magA = Math.sqrt(sumSq a)` and `magB = Math.sqrt(sumSq b)`.  The JS division
yields `NaN` exactly when the dot product is `NaN`, or when the denominator is
zero: `magA * magB = 0` iff `sumSq a = 0` or `sumSq b = 0` (a square root of a
nonnegative rational is zero iff its argument is), and in that case every
touched entry of one vector is `0`, so the dot product is `0` and the JS
result is `0 / 0 = NaN`.  No other case divides by zero, so the remaining
branch is an honest real division. -/
noncomputable def cosineSimilarity (a b : List ℚ) : Option ℝ :=
  match dotProd a b with
  | none => none
  | some d =>
    if sumSq a = 0 ∨ sumSq b = 0 then none
    else some ((d : ℝ) / (Real.sqrt (sumSq a) * Real.sqrt (sumSq b)))

/-- Response document of the lyrics analysis service, as consumed by
`fetchLyricsAndStore` (src/index.js lines 87-118).  Each mapping field is
modelled as the ordered list of its values; a field the response lacks is
`none`. -/
structure ApiResult where
  summary : Option String
  language : Option String
  language_iso : Option String
  explicit : Option Bool
  keywords : Option (List String)
  ddex_moods : Option (List String)
  ddex_themes : Option (List String)
  flags : Option String
deriving DecidableEq, Repr

/-- Rendering of one element of a JS array by `Array.prototype.join`:
`undefined` is rendered as the empty string. -/
def jsJoinElem (o : Option String) : String := o.getD ""

/-- The `x || {}` guard of src/index.js lines 91-93: a missing mapping
contributes no values. -/
def orEmptyVals (o : Option (List String)) : List String := o.getD []

/-- The composed embedding text of src/index.js lines 89-94:
`[summary, ...values(keywords||{}), ...values(moods||{}), ...values(themes||{})].join(' ')`. -/
def combinedText (r : ApiResult) : String :=
  String.intercalate " "
    (jsJoinElem r.summary ::
      (orEmptyVals r.keywords ++ orEmptyVals r.ddex_moods ++ orEmptyVals r.ddex_themes))

/-- JS `Object.values(x)` without a guard (src/index.js lines 112-114): on a
present mapping it returns the value list, but on `undefined` it throws
`TypeError: Cannot convert undefined or null to object`. -/
def jsObjectValues (o : Option (List String)) : Except Unit (List String) :=
  match o with
  | none => .error ()
  | some vs => .ok vs

/-- Node `path.basename` restricted to what the source feeds it: the final
`/`-separated component of the URL (src/index.js line 101). -/
def basename (s : String) : String := (s.splitOn "/").getLastD s

/-- A document of the `songs` collection, exactly the object literal of
src/index.js lines 104-118 plus the `_id` the store assigns on insert.
Opaque store identifiers (`_id`, GridFS ids) are modelled as naturals drawn
from a counter; timestamps as naturals. -/
structure SongDoc where
  oid : ℕ
  songUrl : String
  audioFileId : ℕ
  filename : String
  language : Option String
  language_iso : Option String
  summary : Option String
  explicit : Option Bool
  keywords : List String
  ddex_moods : List String
  ddex_themes : List String
  flags : Option String
  embedding : List ℚ
  created_at : ℕ
deriving DecidableEq, Repr

/-- State of the storage backend shared by both top-level operations.

Modelled from the spec: `connectToDatabase` / `closeConnection` live in the
missing `src/db.js`.  Section 5 of the spec describes "the underlying storage
connection" as one shared resource per process, acquired at the start of a
top-level operation; accordingly `connectToDatabase` hands out the cached open
connection when one exists and opens (acquires) one otherwise, and
`closeConnection` closes it.  `acquired`/`released` count those transitions so
leak statements are expressible. -/
structure WorldState where
  conn : Bool
  acquired : ℕ
  released : ℕ
  songs : List SongDoc
  blobs : List (ℕ × String × List ℕ)
  nextId : ℕ
deriving DecidableEq, Repr

/-- Modelled from the spec: `connectToDatabase` of the missing `src/db.js`
(shared cached connection, acquired on first use within an operation). -/
def connectDB (st : WorldState) : WorldState :=
  if st.conn then st else { st with conn := true, acquired := st.acquired + 1 }

/-- Modelled from the spec: `closeConnection` of the missing `src/db.js`
(release of the shared connection; a no-op when it is already closed). -/
def releaseDB (st : WorldState) : WorldState :=
  if st.conn then { st with conn := false, released := st.released + 1 } else st

/-- Oracle outcomes of the external collaborators touched by one run of
`fetchLyricsAndStore`.  A `Bool` field is the success of the corresponding
fallible step; `Except` fields carry the produced value.  Per §7 of the spec
the document-store taxonomy includes connection failure, so acquiring and
releasing the connection are fallible too. -/
structure IngestEnv where
  connectOk : Bool
  findOneOk : Bool
  apiResult : Except Unit ApiResult
  embedResult : String → Except Unit (List ℚ)
  bufferResult : Except Unit (List ℕ)
  uploadOk : Bool
  insertOk : Bool
  closeOk : Bool
  now : ℕ

/-- The record assembled at src/index.js lines 104-118. -/
def mkSongDoc (url fileName : String) (r : ApiResult) (emb : List ℚ) (blobId oid : ℕ)
    (kw mo th : List String) (now : ℕ) : SongDoc :=
  { oid := oid
    songUrl := url
    audioFileId := blobId
    filename := fileName
    language := r.language
    language_iso := r.language_iso
    summary := r.summary
    explicit := r.explicit
    keywords := kw
    ddex_moods := mo
    ddex_themes := th
    flags := r.flags
    embedding := emb
    created_at := now }

/-- Body of the `try` block of `fetchLyricsAndStore` (src/index.js lines
80-122), run with the connection already acquired at line 78.  State reached
before a throw is kept (an uploaded blob survives a later failure).  Step by
step: the dedup lookup `songExists` (its inner `connectToDatabase` returns the
cached connection and is a no-op), the idempotent skip, the analysis-service
fetch, text composition, the embedding call, the payload fetch, the GridFS
upload, record assembly (whose unguarded `Object.values` calls throw on a
missing mapping), and the insert. -/
def ingestBody (url : String) (env : IngestEnv) (st : WorldState) :
    Except Unit Unit × WorldState :=
  if env.findOneOk = false then (.error (), st)
  else if st.songs.any (fun s => s.songUrl = url) then (.ok (), st)
  else
    match env.apiResult with
    | .error e => (.error e, st)
    | .ok r =>
      match env.embedResult (combinedText r) with
      | .error e => (.error e, st)
      | .ok emb =>
        match env.bufferResult with
        | .error e => (.error e, st)
        | .ok buf =>
          let fileName := basename url
          if env.uploadOk = false then (.error (), st)
          else
            let blobId := st.nextId
            let st1 := { st with
              blobs := st.blobs ++ [(blobId, fileName, buf)]
              nextId := st.nextId + 1 }
            match jsObjectValues r.keywords with
            | .error e => (.error e, st1)
            | .ok kw =>
              match jsObjectValues r.ddex_moods with
              | .error e => (.error e, st1)
              | .ok mo =>
                match jsObjectValues r.ddex_themes with
                | .error e => (.error e, st1)
                | .ok th =>
                  if env.insertOk = false then (.error (), st1)
                  else
                    (.ok (), { st1 with
                      songs := st1.songs ++
                        [mkSongDoc url fileName r emb blobId st1.nextId kw mo th env.now],
                      nextId := st1.nextId + 1 })

/-- The ingestion entry point `fetchLyricsAndStore` (src/index.js lines
77-128).  Line 78 acquires the connection outside the `try`, so a failure
there propagates; every error thrown inside the `try` is caught, logged and
swallowed (the function then resolves with `undefined`, modelled `.ok ()`);
the `finally` block awaits `closeConnection`, whose own failure also
propagates. -/
def fetchLyricsAndStore (url : String) (env : IngestEnv) (st : WorldState) :
    Except Unit Unit × WorldState :=
  if env.connectOk = false then (.error (), st)
  else
    let st0 := connectDB st
    let out := ingestBody url env st0
    if env.closeOk = false then (.error (), out.2) else (.ok (), releaseDB out.2)

/-- An element of the `similarities` array of src/index.js lines 139-142. -/
structure RankedSong where
  songId : ℕ
  similarity : Option ℝ
  songData : SongDoc

/-- Numeric value by which the JS comparator `(a, b) => b.similarity -
a.similarity` orders two entries.  For a `NaN` score the comparator itself
returns `NaN` and ECMA-262 leaves the resulting order implementation-defined;
the model fixes `NaN` to behave like `0` in the comparison.  Theorems about
the order of the output only ever assume `NaN`-free scores, where this choice
is invisible. -/
noncomputable def simVal (x : RankedSong) : ℝ := x.similarity.getD 0

/-- Order produced by the sort comparator of src/index.js line 144:
`x` may stay before `y` iff its score is not smaller. -/
def simGe (x y : RankedSong) : Prop := simVal y ≤ simVal x

noncomputable instance : DecidableRel simGe := fun _ _ => Real.decidableLE _ _

instance : IsTotal RankedSong simGe :=
  ⟨fun x y => le_total (simVal y) (simVal x)⟩

instance : IsTrans RankedSong simGe :=
  ⟨fun _ _ _ h1 h2 => le_trans h2 h1⟩

/-- The `similarities` array of src/index.js lines 139-142. -/
noncomputable def mapSimilarities (queryEmbedding : List ℚ) (songs : List SongDoc) :
    List RankedSong :=
  songs.map fun song =>
    { songId := song.oid
      similarity := cosineSimilarity queryEmbedding song.embedding
      songData := song }

/-- The ranking core of `findSimilarSongs` (src/index.js lines 139-145): map
to scored entries, sort by descending score, take the first five.
`Array.prototype.sort` is stable and, for a consistent comparator, returns the
unique stable sort for the comparator's order; `List.insertionSort simGe` is
exactly that list. -/
noncomputable def rankSongs (queryEmbedding : List ℚ) (songs : List SongDoc) :
    List RankedSong :=
  (List.insertionSort simGe (mapSimilarities queryEmbedding songs)).take 5

/-- Oracle outcomes of the external collaborators of one `findSimilarSongs`
run. -/
structure SearchEnv where
  embedResult : Except Unit (List ℚ)
  connectOk : Bool
  findOk : Bool
  closeOk : Bool

/-- The search entry point `findSimilarSongs` (src/index.js lines 130-154):
embed the query text (before any connection is acquired), connect, read the
whole corpus, rank it, log, close, return the top five.  There is no
`try`/`finally`, so an error after the connection is acquired skips
`closeConnection` at line 152 and propagates. -/
noncomputable def findSimilarSongs (env : SearchEnv) (st : WorldState) :
    Except Unit (List RankedSong) × WorldState :=
  match env.embedResult with
  | .error e => (.error e, st)
  | .ok queryEmbedding =>
    if env.connectOk = false then (.error (), st)
    else
      let st1 := connectDB st
      if env.findOk = false then (.error (), st1)
      else
        let topSongs := rankSongs queryEmbedding st1.songs
        if env.closeOk = false then (.error (), st1)
        else (.ok topSongs, releaseDB st1)

/-- Modelled from the spec, §4.2 Text Composer, for comparison with the
source's `combinedText`: "Output is the single-space join, in this exact
order: `summary`, then every value of `keywords` (in the mapping's natural
iteration order), then every value of `moods`, then every value of `themes`." -/
def composeSpec (summary : String) (kw mo th : List String) : String :=
  String.intercalate " " (summary :: (kw ++ mo ++ th))

/-- Number of stored records whose `songUrl` equals the given source key. -/
def countKey (songs : List SongDoc) (url : String) : ℕ :=
  songs.countP fun s => s.songUrl = url

/-- Every oracle of one ingestion run succeeds and the analysis response
carries all three optional mappings: the nominal, fully successful run. -/
def IngestOk (env : IngestEnv) : Prop :=
  env.connectOk = true ∧ env.findOneOk = true ∧ env.closeOk = true ∧
    env.uploadOk = true ∧ env.insertOk = true ∧
    ∃ r kw mo th, env.apiResult = .ok r ∧ r.keywords = some kw ∧
      r.ddex_moods = some mo ∧ r.ddex_themes = some th ∧
      (∃ emb, env.embedResult (combinedText r) = .ok emb) ∧
      ∃ buf, env.bufferResult = .ok buf

/-- The length contract claimed for the ranked output: for every caller-chosen
`k` the ranked output has length `min k |corpus|` (in particular it is empty
for `k = 0`). -/
def rankLenContract : Prop :=
  ∀ (q : List ℚ) (corpus : List SongDoc) (k : ℕ),
    (rankSongs q corpus).length = min k corpus.length

/-- Concrete analysis response with every optional mapping present. -/
def sampleApi : ApiResult :=
  { summary := some "s"
    language := some "en"
    language_iso := some "en"
    explicit := some false
    keywords := some ["k1", "k2"]
    ddex_moods := some ["m1"]
    ddex_themes := some ["t1"]
    flags := some "f" }

/-- Concrete analysis response lacking the `keywords` mapping. -/
def sampleApiNoKw : ApiResult := { sampleApi with keywords := none }

/-- Concrete fully successful ingestion environment (embedding of length 2). -/
def sampleEnv : IngestEnv :=
  { connectOk := true
    findOneOk := true
    apiResult := .ok sampleApi
    embedResult := fun _ => .ok [1, 2]
    bufferResult := .ok [7, 8, 9]
    uploadOk := true
    insertOk := true
    closeOk := true
    now := 42 }

/-- Concrete successful environment whose embedding client returns a vector of
length 1 instead. -/
def sampleEnvDim1 : IngestEnv := { sampleEnv with embedResult := fun _ => .ok [3] }

/-- Concrete environment in which only the `keywords` mapping is missing from
the analysis response. -/
def sampleEnvNoKw : IngestEnv := { sampleEnv with apiResult := .ok sampleApiNoKw }

/-- Concrete environment whose connection acquisition fails. -/
def sampleEnvConnFail : IngestEnv := { sampleEnv with connectOk := false }

/-- Concrete environment whose analysis-service fetch fails. -/
def sampleEnvApiFail : IngestEnv := { sampleEnv with apiResult := .error () }

/-- Fresh storage state: closed connection, empty corpus and blob store. -/
def sampleState : WorldState :=
  { conn := false, acquired := 0, released := 0, songs := [], blobs := [], nextId := 0 }

/-- Stored record whose embedding is the zero vector `[0]`. -/
def zeroSong : SongDoc :=
  { oid := 0, songUrl := "z", audioFileId := 0, filename := "z", language := none
    language_iso := none, summary := none, explicit := none, keywords := []
    ddex_moods := [], ddex_themes := [], flags := none, embedding := [0], created_at := 0 }

/-- Stored record with embedding `[1, 0]`. -/
def songA : SongDoc := { zeroSong with oid := 1, songUrl := "a", embedding := [1, 0] }

/-- Stored record with embedding `[0, 1]`. -/
def songB : SongDoc := { zeroSong with oid := 2, songUrl := "b", embedding := [0, 1] }

/-- Concrete search environment whose corpus read fails after the connection
was acquired. -/
def sampleSearchFindFail : SearchEnv :=
  { embedResult := .ok [1], connectOk := true, findOk := false, closeOk := true }

/-- Concrete fully successful search environment. -/
def sampleSearchOk : SearchEnv :=
  { embedResult := .ok [1, 0], connectOk := true, findOk := true, closeOk := true }

/-! Helper lemmas about the embedded operations. -/

@[simp] lemma connectDB_songs (st : WorldState) : (connectDB st).songs = st.songs := by
  unfold connectDB; split <;> rfl

@[simp] lemma connectDB_blobs (st : WorldState) : (connectDB st).blobs = st.blobs := by
  unfold connectDB; split <;> rfl

@[simp] lemma connectDB_nextId (st : WorldState) : (connectDB st).nextId = st.nextId := by
  unfold connectDB; split <;> rfl

@[simp] lemma releaseDB_songs (st : WorldState) : (releaseDB st).songs = st.songs := by
  unfold releaseDB; split <;> rfl

@[simp] lemma releaseDB_blobs (st : WorldState) : (releaseDB st).blobs = st.blobs := by
  unfold releaseDB; split <;> rfl

/-- With acquisition and release succeeding, `fetchLyricsAndStore` is: acquire,
run the `try` body, swallow its outcome, release. -/
lemma fetch_run (url : String) (env : IngestEnv) (st : WorldState)
    (hc : env.connectOk = true) (hcl : env.closeOk = true) :
    fetchLyricsAndStore url env st =
      (.ok (), releaseDB (ingestBody url env (connectDB st)).2) := by
  simp [fetchLyricsAndStore, hc, hcl]

/-- The idempotent-skip run of the `try` body: the dedup lookup succeeds and
finds the key, and the body returns at once without touching the state. -/
lemma ingestBody_skip (url : String) (env : IngestEnv) (st : WorldState)
    (hf : env.findOneOk = true)
    (hdup : (st.songs.any fun s => s.songUrl = url) = true) :
    ingestBody url env st = (.ok (), st) := by
  simp [ingestBody, hf, hdup]

/-- The fully successful run of the `try` body: one blob and one record are
appended, nothing else changes. -/
lemma ingestBody_insert (url : String) (env : IngestEnv) (st : WorldState)
    (r : ApiResult) (emb : List ℚ) (buf : List ℕ) (kw mo th : List String)
    (hf : env.findOneOk = true)
    (hnew : (st.songs.any fun s => s.songUrl = url) = false)
    (hapi : env.apiResult = .ok r)
    (hemb : env.embedResult (combinedText r) = .ok emb)
    (hbuf : env.bufferResult = .ok buf)
    (hup : env.uploadOk = true)
    (hkw : r.keywords = some kw)
    (hmo : r.ddex_moods = some mo)
    (hth : r.ddex_themes = some th)
    (hins : env.insertOk = true) :
    ingestBody url env st = (.ok (), { st with
      blobs := st.blobs ++ [(st.nextId, basename url, buf)]
      songs := st.songs ++
        [mkSongDoc url (basename url) r emb st.nextId (st.nextId + 1) kw mo th env.now]
      nextId := st.nextId + 1 + 1 }) := by
  simp [ingestBody, hf, hnew, hapi, hemb, hbuf, hup, hkw, hmo, hth, hins, jsObjectValues]

/-- The `try` body only reads and writes the document and blob stores; the
connection bookkeeping is untouched by it. -/
lemma ingestBody_preserves (url : String) (env : IngestEnv) (st : WorldState) :
    (ingestBody url env st).2.conn = st.conn ∧
      (ingestBody url env st).2.acquired = st.acquired ∧
      (ingestBody url env st).2.released = st.released := by
  unfold ingestBody
  split
  · exact ⟨rfl, rfl, rfl⟩
  split
  · exact ⟨rfl, rfl, rfl⟩
  split
  · exact ⟨rfl, rfl, rfl⟩
  split
  · exact ⟨rfl, rfl, rfl⟩
  split
  · exact ⟨rfl, rfl, rfl⟩
  split
  · exact ⟨rfl, rfl, rfl⟩
  split
  · exact ⟨rfl, rfl, rfl⟩
  split
  · exact ⟨rfl, rfl, rfl⟩
  split
  · exact ⟨rfl, rfl, rfl⟩
  split
  · exact ⟨rfl, rfl, rfl⟩
  exact ⟨rfl, rfl, rfl⟩

/-- Exhaustive case analysis of the `try` body's effect on the corpus: either
it leaves the stored records unchanged, or every pipeline stage succeeded and
exactly one record was appended, together with its uploaded blob. -/
lemma ingestBody_songs_cases (url : String) (env : IngestEnv) (st : WorldState) :
    (ingestBody url env st).2.songs = st.songs ∨
      (env.uploadOk = true ∧ env.insertOk = true ∧
        (∃ r, env.apiResult = .ok r ∧
          ∃ emb, env.embedResult (combinedText r) = .ok emb) ∧
        (∃ buf, env.bufferResult = .ok buf) ∧
        ∃ rec buf, (ingestBody url env st).2.songs = st.songs ++ [rec] ∧
          (ingestBody url env st).2.blobs = st.blobs ++ [(st.nextId, basename url, buf)]) := by
  unfold ingestBody
  split
  · exact Or.inl rfl
  split
  · exact Or.inl rfl
  split
  · exact Or.inl rfl
  next r hapi =>
    split
    · exact Or.inl rfl
    next emb hemb =>
      split
      · exact Or.inl rfl
      next buf hbuf =>
        split
        · exact Or.inl rfl
        next hup =>
          split
          · exact Or.inl rfl
          next kw hkw =>
            split
            · exact Or.inl rfl
            next mo hmo =>
              split
              · exact Or.inl rfl
              next th hth =>
                split
                · exact Or.inl rfl
                next hins =>
                  right
                  refine ⟨by simpa using hup, by simpa using hins,
                    ⟨r, hapi, emb, hemb⟩, ⟨buf, hbuf⟩, ?_⟩
                  exact ⟨mkSongDoc url (basename url) r emb st.nextId (st.nextId + 1)
                    kw mo th env.now, buf, by simp, by simp⟩

lemma zip_take_length (a b : List ℚ) : a.zip b = a.zip (b.take a.length) := by
  induction a generalizing b with
  | nil => simp
  | cons x xs ih =>
    cases b with
    | nil => simp
    | cons y ys => simp [ih ys]

/-- C2: the composed embedding text is a pure, deterministic function of the
metadata equal to the spec's composition — the single-space join of the
summary, then every keyword value, then every mood value, then every theme
value, in the mapping's iteration order, a missing mapping contributing zero
elements; in particular metadata carrying only a summary `s` composes to
`s`. -/
theorem combinedText_matches_spec_compose :
    (∀ (r : ApiResult) (s : String), r.summary = some s →
      combinedText r =
        composeSpec s (orEmptyVals r.keywords) (orEmptyVals r.ddex_moods)
          (orEmptyVals r.ddex_themes)) ∧
    ∀ (s : String) (l li : Option String) (e : Option Bool) (f : Option String),
      combinedText
        { summary := some s, language := l, language_iso := li, explicit := e,
          keywords := none, ddex_moods := none, ddex_themes := none, flags := f } = s := by
  constructor
  · intro r s hs
    simp [combinedText, composeSpec, jsJoinElem, hs]
  · intro s l li e f
    rfl

/-- Witness for C2 at concrete metadata. -/
theorem combinedText_matches_spec_compose_witness :
    (sampleApi.summary = some "s" ∧
      combinedText sampleApi =
        composeSpec "s" (orEmptyVals sampleApi.keywords) (orEmptyVals sampleApi.ddex_moods)
          (orEmptyVals sampleApi.ddex_themes)) ∧
    combinedText
      { summary := some "q", language := none, language_iso := none, explicit := none,
        keywords := none, ddex_moods := none, ddex_themes := none, flags := none } = "q" :=
  ⟨⟨rfl, combinedText_matches_spec_compose.1 sampleApi "s" rfl⟩,
    combinedText_matches_spec_compose.2 "q" none none none none⟩

/-- Counterexample to C3: for the zero-magnitude pair `[0]`, `[1]` the code's
similarity is `NaN` (modelled `none`), not `0`, and that `NaN` score reaches
the ranked output of a query over a singleton corpus whose only record has
the zero embedding. -/
theorem zero_magnitude_similarity_not_zero :
    cosineSimilarity [0] [1] ≠ some 0 ∧
      (rankSongs [1] [zeroSong]).map (fun x => x.similarity) = [none] := by
  constructor
  · have h0 : cosineSimilarity [0] [1] = none := by norm_num [cosineSimilarity, dotProd, sumSq]
    rw [h0]
    simp
  · norm_num [rankSongs, mapSimilarities, zeroSong, cosineSimilarity, dotProd, sumSq]

/-- C3 (amended): whenever either vector has zero magnitude the similarity is
`NaN` (modelled `none`), never `0` — the code substitutes no defined value for
the zero-denominator case. -/
theorem zero_magnitude_similarity_nan (a b : List ℚ)
    (h : sumSq a = 0 ∨ sumSq b = 0) : cosineSimilarity a b = none := by
  unfold cosineSimilarity
  split
  · rfl
  · rw [if_pos h]

/-- Witness for the amended C3 at the zero vector `[0]` against `[1]`. -/
theorem zero_magnitude_similarity_nan_witness :
    (sumSq [0] = 0 ∨ sumSq [1] = 0) ∧ cosineSimilarity [0] [1] = none := by
  have h : sumSq [0] = 0 ∨ sumSq [1] = 0 := Or.inl (by norm_num [sumSq])
  exact ⟨h, zero_magnitude_similarity_nan _ _ h⟩

/-- Counterexample to C7: similarity scoring with vectors of unequal length
raises no error of any kind — with the first vector shorter it silently
scores over the shorter length (here `[1]` against `[1, 0]` scores a perfect
`1`), and with the first vector longer it yields `NaN`; in neither case is a
`DimensionMismatchError` signalled. -/
theorem mismatched_lengths_no_error :
    cosineSimilarity [1] [1, 0] = some 1 ∧ cosineSimilarity [1, 0, 1] [1] = none := by
  constructor
  · norm_num [cosineSimilarity, dotProd, sumSq, Real.sqrt_one]
  · norm_num [cosineSimilarity, dotProd, sumSq]

/-- C7 (amended): length-mismatched scoring never signals an error — when the
first vector is longer the score is `NaN` (`none`); when it is not longer and
both magnitudes are nonzero a numeric score is produced, and the dot product
underlying every score uses only the first `a.length` components of `b` (a
silent partial comparison). -/
theorem cosine_mismatch_nan_or_partial :
    (∀ a b : List ℚ, b.length < a.length → cosineSimilarity a b = none) ∧
    (∀ a b : List ℚ, a.length ≤ b.length → sumSq a ≠ 0 → sumSq b ≠ 0 →
      (cosineSimilarity a b).isSome = true) ∧
    ∀ a b : List ℚ, dotProd a b = dotProd a (b.take a.length) := by
  refine ⟨?_, ?_, ?_⟩
  · intro a b h
    have hd : dotProd a b = none := by
      simp only [dotProd, ite_eq_right_iff]
      omega
    simp [cosineSimilarity, hd]
  · intro a b hle hsa hsb
    simp [cosineSimilarity, dotProd, hle, hsa, hsb]
  · intro a b
    by_cases hle : a.length ≤ b.length
    · have : a.length ≤ (b.take a.length).length := by simp [List.length_take]; omega
      simp [dotProd, hle, this, zip_take_length a b]
    · have : ¬ a.length ≤ (b.take a.length).length := by simp [List.length_take]; omega
      simp [dotProd, hle, this]

/-- Witness for the amended C7 at concrete mismatched vectors. -/
theorem cosine_mismatch_nan_or_partial_witness :
    ((2 : ℕ) < 3 ∧ cosineSimilarity [1, 0, 1] [1, 1] = none) ∧
    ((1 : ℕ) ≤ 2 ∧ sumSq [1] ≠ 0 ∧ sumSq [1, 1] ≠ 0 ∧
      (cosineSimilarity [1] [1, 1]).isSome = true) ∧
    dotProd [1] [1, 1] = dotProd [1] ([1, 1].take 1) := by
  refine ⟨⟨by norm_num, cosine_mismatch_nan_or_partial.1 [1, 0, 1] [1, 1] (by norm_num)⟩,
    ⟨by norm_num, by norm_num [sumSq], by norm_num [sumSq],
      cosine_mismatch_nan_or_partial.2.1 [1] [1, 1] (by norm_num)
        (by norm_num [sumSq]) (by norm_num [sumSq])⟩,
    cosine_mismatch_nan_or_partial.2.2 [1] [1, 1]⟩

/-- C1: ingesting the same source key twice in sequence stores exactly one
record for that key — a fully successful first call inserts exactly one
record, and the second call observes it through the dedup lookup, returns
successfully as a no-op, and leaves the corpus unchanged, whatever its
remaining oracles would have done. -/
theorem ingest_twice_yields_single_record (url : String) (env1 env2 : IngestEnv)
    (st : WorldState) (h1 : IngestOk env1) (hnew : countKey st.songs url = 0)
    (h2c : env2.connectOk = true) (h2f : env2.findOneOk = true) (h2cl : env2.closeOk = true) :
    countKey (fetchLyricsAndStore url env1 st).2.songs url = 1 ∧
    (fetchLyricsAndStore url env2 (fetchLyricsAndStore url env1 st).2).1 = .ok () ∧
    (fetchLyricsAndStore url env2 (fetchLyricsAndStore url env1 st).2).2.songs =
      (fetchLyricsAndStore url env1 st).2.songs := by
  obtain ⟨h1c, h1f, h1cl, h1up, h1ins, r, kw, mo, th, hapi, hkw, hmo, hth,
    ⟨emb, hemb⟩, buf, hbuf⟩ := h1
  have hcount0 : st.songs.countP (fun s => s.songUrl = url) = 0 := hnew
  have hany : (st.songs.any fun s => s.songUrl = url) = false := by
    rw [List.any_eq_false]
    intro s hs
    exact List.countP_eq_zero.mp hcount0 s hs
  have run1 : fetchLyricsAndStore url env1 st =
      (.ok (), releaseDB (ingestBody url env1 (connectDB st)).2) :=
    fetch_run url env1 st h1c h1cl
  have hins1 := ingestBody_insert url env1 (connectDB st) r emb buf kw mo th h1f
    (by simpa using hany) hapi hemb hbuf h1up hkw hmo hth h1ins
  have hsongs1 : (fetchLyricsAndStore url env1 st).2.songs =
      st.songs ++ [mkSongDoc url (basename url) r emb st.nextId (st.nextId + 1)
        kw mo th env1.now] := by
    rw [run1]
    simp [hins1]
  have hcount1 : countKey (fetchLyricsAndStore url env1 st).2.songs url = 1 := by
    rw [hsongs1]
    simp [countKey, List.countP_append, hcount0, mkSongDoc, List.countP_cons]
  have hdup : ((fetchLyricsAndStore url env1 st).2.songs.any
      fun s => s.songUrl = url) = true := by
    rw [hsongs1]
    simp [List.any_append, mkSongDoc]
  have run2 : fetchLyricsAndStore url env2 (fetchLyricsAndStore url env1 st).2 =
      (.ok (), releaseDB (ingestBody url env2
        (connectDB (fetchLyricsAndStore url env1 st).2)).2) :=
    fetch_run url env2 _ h2c h2cl
  have skip2 := ingestBody_skip url env2 (connectDB (fetchLyricsAndStore url env1 st).2) h2f
    (by simpa using hdup)
  refine ⟨hcount1, ?_, ?_⟩
  · rw [run2]
  · rw [run2]
    simp [skip2]

/-- Witness for C1: two concrete sequential ingestions of the key `"u"` from
the fresh state. -/
theorem ingest_twice_yields_single_record_witness :
    (IngestOk sampleEnv ∧ countKey sampleState.songs "u" = 0 ∧
      sampleEnvDim1.connectOk = true ∧ sampleEnvDim1.findOneOk = true ∧
      sampleEnvDim1.closeOk = true) ∧
    countKey (fetchLyricsAndStore "u" sampleEnv sampleState).2.songs "u" = 1 ∧
    (fetchLyricsAndStore "u" sampleEnvDim1 (fetchLyricsAndStore "u" sampleEnv sampleState).2).1 =
      .ok () ∧
    (fetchLyricsAndStore "u" sampleEnvDim1
        (fetchLyricsAndStore "u" sampleEnv sampleState).2).2.songs =
      (fetchLyricsAndStore "u" sampleEnv sampleState).2.songs := by
  have hok : IngestOk sampleEnv :=
    ⟨rfl, rfl, rfl, rfl, rfl, sampleApi, ["k1", "k2"], ["m1"], ["t1"], rfl, rfl, rfl, rfl,
      ⟨[1, 2], rfl⟩, ⟨[7, 8, 9], rfl⟩⟩
  have hnew : countKey sampleState.songs "u" = 0 := rfl
  exact ⟨⟨hok, hnew, rfl, rfl, rfl⟩,
    ingest_twice_yields_single_record "u" sampleEnv sampleEnvDim1 sampleState hok hnew
      rfl rfl rfl⟩

/-- C5: ingestion persists no record unless every stage succeeded — each run
either leaves the stored records exactly unchanged (so any failure of the
metadata fetch, composition, embedding, payload fetch, blob upload, assembly
or insert leaves no partial record), or the analysis fetch, embedding,
payload fetch and blob upload all succeeded and exactly one complete record
was appended, together with the blob whose upload preceded the insert. -/
theorem ingest_abort_leaves_no_record (url : String) (env : IngestEnv) (st : WorldState) :
    (fetchLyricsAndStore url env st).2.songs = st.songs ∨
      (env.uploadOk = true ∧ env.insertOk = true ∧
        (∃ r, env.apiResult = .ok r ∧ ∃ emb, env.embedResult (combinedText r) = .ok emb) ∧
        (∃ buf, env.bufferResult = .ok buf) ∧
        ∃ rec buf, (fetchLyricsAndStore url env st).2.songs = st.songs ++ [rec] ∧
          (fetchLyricsAndStore url env st).2.blobs =
            st.blobs ++ [(st.nextId, basename url, buf)]) := by
  by_cases hc : env.connectOk = true
  · have hstate : (fetchLyricsAndStore url env st).2 =
        releaseDB (ingestBody url env (connectDB st)).2 ∨
        (fetchLyricsAndStore url env st).2 = (ingestBody url env (connectDB st)).2 := by
      by_cases hcl : env.closeOk = true
      · left
        rw [fetch_run url env st hc hcl]
      · right
        have hcl2 : env.closeOk = false := by simpa using hcl
        simp [fetchLyricsAndStore, hc, hcl2]
    have hsg : (fetchLyricsAndStore url env st).2.songs =
        (ingestBody url env (connectDB st)).2.songs := by
      rcases hstate with h | h
      · rw [h, releaseDB_songs]
      · rw [h]
    have hbl : (fetchLyricsAndStore url env st).2.blobs =
        (ingestBody url env (connectDB st)).2.blobs := by
      rcases hstate with h | h
      · rw [h, releaseDB_blobs]
      · rw [h]
    rcases ingestBody_songs_cases url env (connectDB st) with h |
      ⟨hup, hins, hr, hbuf, rec, buf, hsongs, hblobs⟩
    · left
      rw [hsg, h, connectDB_songs]
    · right
      refine ⟨hup, hins, hr, hbuf, rec, buf, ?_, ?_⟩
      · rw [hsg, hsongs, connectDB_songs]
      · rw [hbl, hblobs, connectDB_blobs, connectDB_nextId]
  · left
    simp only [Bool.not_eq_true] at hc
    simp [fetchLyricsAndStore, hc]

/-- C6 (amended): ingestion performs no dimension validation — a fully
successful run stores, unchecked, exactly the vector the embedding client
returned, whatever its length. -/
theorem ingest_stores_embedding_unchecked (url : String) (env : IngestEnv) (st : WorldState)
    (r : ApiResult) (emb : List ℚ) (buf : List ℕ) (kw mo th : List String)
    (hc : env.connectOk = true) (hcl : env.closeOk = true) (hf : env.findOneOk = true)
    (hnew : (st.songs.any fun s => s.songUrl = url) = false)
    (hapi : env.apiResult = .ok r)
    (hemb : env.embedResult (combinedText r) = .ok emb)
    (hbuf : env.bufferResult = .ok buf)
    (hup : env.uploadOk = true)
    (hkw : r.keywords = some kw)
    (hmo : r.ddex_moods = some mo)
    (hth : r.ddex_themes = some th)
    (hins : env.insertOk = true) :
    ∃ rec, (fetchLyricsAndStore url env st).2.songs = st.songs ++ [rec] ∧
      rec.embedding = emb := by
  have hins1 := ingestBody_insert url env (connectDB st) r emb buf kw mo th hf
    (by simpa using hnew) hapi hemb hbuf hup hkw hmo hth hins
  refine ⟨mkSongDoc url (basename url) r emb st.nextId (st.nextId + 1) kw mo th env.now,
    ?_, rfl⟩
  rw [fetch_run url env st hc hcl]
  simp [hins1]

/-- Witness for the amended C6: one concrete successful ingestion storing the
returned length-2 vector unchanged. -/
theorem ingest_stores_embedding_unchecked_witness :
    ((sampleState.songs.any fun s => s.songUrl = "u") = false ∧
      sampleEnv.apiResult = .ok sampleApi ∧
      sampleEnv.embedResult (combinedText sampleApi) = .ok [1, 2]) ∧
    ∃ rec, (fetchLyricsAndStore "u" sampleEnv sampleState).2.songs =
        sampleState.songs ++ [rec] ∧ rec.embedding = [1, 2] :=
  ⟨⟨rfl, rfl, rfl⟩,
    ingest_stores_embedding_unchecked "u" sampleEnv sampleState sampleApi [1, 2] [7, 8, 9]
      ["k1", "k2"] ["m1"] ["t1"] rfl rfl rfl rfl rfl rfl rfl rfl rfl rfl rfl rfl⟩

/-- Counterexample to C6: two successful ingestions of different keys, whose
embedding client returned vectors of lengths 2 and 1, leave two coexisting
stored records with embedding lengths 2 and 1 — no process-wide dimension `D`
covers the corpus and nothing was rejected at write time. -/
theorem dimension_mismatch_records_coexist :
    (((fetchLyricsAndStore "u2" sampleEnvDim1
        (fetchLyricsAndStore "u1" sampleEnv sampleState).2).2.songs.map
      fun s => s.embedding.length) = [2, 1]) ∧
    ¬ ∃ D, ∀ s ∈ (fetchLyricsAndStore "u2" sampleEnvDim1
        (fetchLyricsAndStore "u1" sampleEnv sampleState).2).2.songs,
      s.embedding.length = D := by
  have hmap : ((fetchLyricsAndStore "u2" sampleEnvDim1
      (fetchLyricsAndStore "u1" sampleEnv sampleState).2).2.songs.map
        fun s => s.embedding.length) = [2, 1] := by
    have hne : ("u1" : String) = "u2" ↔ False := by simp
    norm_num [fetchLyricsAndStore, ingestBody, connectDB, releaseDB, sampleEnv,
      sampleEnvDim1, sampleState, sampleApi, jsObjectValues, basename, mkSongDoc, hne]
  refine ⟨hmap, ?_⟩
  rintro ⟨D, hD⟩
  have hall : ∀ x ∈ ([2, 1] : List ℕ), x = D := by
    intro x hx
    rw [← hmap] at hx
    obtain ⟨s, hs, rfl⟩ := List.mem_map.mp hx
    exact hD s hs
  have h2 := hall 2 (by simp)
  have h1 := hall 1 (by simp)
  omega

/-- C8 — the claim states the intent, the code slips: with every external
stage succeeding but the `keywords` mapping absent from the analysis
response, the composition step does treat the absence as empty (the guarded
reads of lines 91-93), yet record assembly at lines 112-114 calls
`Object.values` unguarded and throws, so the ingestion aborts after the blob
upload — the swallowing `catch` resolves the call, no record is stored, and
an orphaned blob remains. -/
theorem missing_keywords_aborts_ingest :
    (fetchLyricsAndStore "u" sampleEnvNoKw sampleState).1 = .ok () ∧
    (fetchLyricsAndStore "u" sampleEnvNoKw sampleState).2.songs = [] ∧
    (fetchLyricsAndStore "u" sampleEnvNoKw sampleState).2.blobs.length = 1 ∧
    (ingestBody "u" sampleEnvNoKw (connectDB sampleState)).1 = .error () ∧
    combinedText sampleApiNoKw = "s m1 t1" := by
  refine ⟨?_, ?_, ?_, ?_, rfl⟩ <;>
    norm_num [fetchLyricsAndStore, ingestBody, connectDB, releaseDB, sampleEnvNoKw,
      sampleEnv, sampleState, sampleApiNoKw, sampleApi, jsObjectValues, basename]

/-- C10 (amended): provided connection acquisition (line 78, outside the
`try`) and the final `closeConnection` (awaited in the `finally`) succeed,
`fetchLyricsAndStore` always resolves with `undefined` — identically on
success, duplicate skip, and every caught stage failure, so the returned
value distinguishes none of these outcomes. -/
theorem ingest_resolves_ok_when_conn_ok (url : String) (env : IngestEnv) (st : WorldState)
    (hc : env.connectOk = true) (hcl : env.closeOk = true) :
    (fetchLyricsAndStore url env st).1 = .ok () := by
  rw [fetch_run url env st hc hcl]

/-- Witness for the amended C10: even with the analysis-service fetch failing,
the concrete call resolves normally. -/
theorem ingest_resolves_ok_when_conn_ok_witness :
    (sampleEnvApiFail.connectOk = true ∧ sampleEnvApiFail.closeOk = true) ∧
    (fetchLyricsAndStore "u" sampleEnvApiFail sampleState).1 = .ok () :=
  ⟨⟨rfl, rfl⟩, ingest_resolves_ok_when_conn_ok "u" sampleEnvApiFail sampleState rfl rfl⟩

/-- Counterexample to C10: when `connectToDatabase` at line 78 rejects, the
rejection happens before the `try`/`catch` is entered and
`fetchLyricsAndStore` itself rejects rather than resolving. -/
theorem connect_failure_rejects :
    (fetchLyricsAndStore "u" sampleEnvConnFail sampleState).1 ≠ .ok () := by
  simp [fetchLyricsAndStore, sampleEnvConnFail, sampleEnv]

/-- C9 (amended): the ingest operation releases the shared connection exactly
once on every exit path — success, duplicate skip, or any caught stage
failure — provided acquisition and release themselves succeed; the search
operation releases it only on its fully successful path. -/
theorem connection_released_ingest_always_search_success :
    (∀ (url : String) (env : IngestEnv) (st : WorldState),
      env.connectOk = true → env.closeOk = true → st.conn = false →
        ((fetchLyricsAndStore url env st).2.acquired = st.acquired + 1 ∧
          (fetchLyricsAndStore url env st).2.released = st.released + 1 ∧
          (fetchLyricsAndStore url env st).2.conn = false)) ∧
    ∀ (env : SearchEnv) (st : WorldState),
      env.connectOk = true → env.findOk = true → env.closeOk = true →
        st.conn = false → (∃ q, env.embedResult = .ok q) →
        ((findSimilarSongs env st).2.acquired = st.acquired + 1 ∧
          (findSimilarSongs env st).2.released = st.released + 1 ∧
          (findSimilarSongs env st).2.conn = false) := by
  constructor
  · intro url env st hc hcl hconn
    rw [fetch_run url env st hc hcl]
    obtain ⟨hpc, hpa, hpr⟩ := ingestBody_preserves url env (connectDB st)
    have h1 : (ingestBody url env (connectDB st)).2.conn = true := by
      rw [hpc]; simp [connectDB, hconn]
    have h2 : (ingestBody url env (connectDB st)).2.acquired = st.acquired + 1 := by
      rw [hpa]; simp [connectDB, hconn]
    have h3 : (ingestBody url env (connectDB st)).2.released = st.released := by
      rw [hpr]; simp [connectDB, hconn]
    simp [releaseDB, h1, h2, h3]
  · rintro env st hc hf hcl hconn ⟨q, hq⟩
    simp [findSimilarSongs, hq, hc, hf, hcl, connectDB, releaseDB, hconn]

/-- Witness for the amended C9: one concrete ingestion (with a failing stage
or not — here fully successful) and one concrete successful search, each
acquiring and releasing exactly once. -/
theorem connection_released_witness :
    ((sampleEnv.connectOk = true ∧ sampleEnv.closeOk = true ∧ sampleState.conn = false) ∧
      ((fetchLyricsAndStore "u" sampleEnv sampleState).2.acquired = sampleState.acquired + 1 ∧
        (fetchLyricsAndStore "u" sampleEnv sampleState).2.released = sampleState.released + 1 ∧
        (fetchLyricsAndStore "u" sampleEnv sampleState).2.conn = false)) ∧
    (sampleSearchOk.connectOk = true ∧ sampleSearchOk.findOk = true ∧
      sampleSearchOk.closeOk = true ∧ (∃ q, sampleSearchOk.embedResult = .ok q)) ∧
      ((findSimilarSongs sampleSearchOk sampleState).2.acquired = sampleState.acquired + 1 ∧
        (findSimilarSongs sampleSearchOk sampleState).2.released = sampleState.released + 1 ∧
        (findSimilarSongs sampleSearchOk sampleState).2.conn = false) :=
  ⟨⟨⟨rfl, rfl, rfl⟩,
      connection_released_ingest_always_search_success.1 "u" sampleEnv sampleState rfl rfl rfl⟩,
    ⟨rfl, rfl, rfl, ⟨[1, 0], rfl⟩⟩,
    connection_released_ingest_always_search_success.2 sampleSearchOk sampleState rfl rfl rfl rfl
      ⟨[1, 0], rfl⟩⟩

/-- Counterexample to C9: a search whose corpus read fails after the
connection was acquired returns with the connection still open — acquired
once, released zero times: that exit path leaks the connection. -/
theorem search_error_leaks_connection :
    (findSimilarSongs sampleSearchFindFail sampleState).2.acquired = 1 ∧
    (findSimilarSongs sampleSearchFindFail sampleState).2.released = 0 ∧
    (findSimilarSongs sampleSearchFindFail sampleState).2.conn = true := by
  refine ⟨?_, ?_, ?_⟩ <;>
    norm_num [findSimilarSongs, sampleSearchFindFail, connectDB, sampleState]

/-- Counterexample to C4: the ranked output's length cannot equal
`min k |corpus|` for every `k`, because the code takes no `k` at all — the
cut is hardcoded to five; a singleton corpus yields one result even for
`k = 0`, where the claim demands an empty output. -/
theorem rank_output_ignores_k : ¬ rankLenContract := by
  intro h
  have h0 := h [1] [zeroSong] 0
  have hlen : (rankSongs [1] [zeroSong]).length = 1 := by
    simp [rankSongs, mapSimilarities]
  omega

/-- C4 (amended): with the top-k count hardcoded to five — for every query
and corpus whose scores are `NaN`-free, the ranked output has length
`min 5 |corpus|`, is sorted non-increasing by score, every output score is a
defined number, and equal-scored entries keep their original corpus order in
the sorted sequence the output is cut from (stable ties). -/
theorem rank_output_top5_sorted_stable (q : List ℚ) (corpus : List SongDoc)
    (h : ∀ s ∈ corpus, (cosineSimilarity q s.embedding).isSome = true) :
    (rankSongs q corpus).length = min 5 corpus.length ∧
    (rankSongs q corpus).Pairwise simGe ∧
    (∀ x ∈ rankSongs q corpus, x.similarity.isSome = true) ∧
    ∀ a b : RankedSong, a.similarity = b.similarity →
      List.Sublist [a, b] (mapSimilarities q corpus) →
      List.Sublist [a, b] (List.insertionSort simGe (mapSimilarities q corpus)) := by
  refine ⟨?_, ?_, ?_, ?_⟩
  · simp [rankSongs, List.length_take, List.length_insertionSort, mapSimilarities]
  · exact (List.sorted_insertionSort simGe (mapSimilarities q corpus)).sublist
      (List.take_sublist _ _)
  · intro x hx
    have hx2 : x ∈ List.insertionSort simGe (mapSimilarities q corpus) :=
      List.mem_of_mem_take hx
    rw [List.mem_insertionSort] at hx2
    simp only [mapSimilarities, List.mem_map] at hx2
    obtain ⟨s, hs, rfl⟩ := hx2
    exact h s hs
  · intro a b hab hsub
    apply List.pair_sublist_insertionSort _ hsub
    simp [simGe, simVal, hab]

/-- Witness for the amended C4 on the two-record corpus with embeddings
`[1, 0]` and `[0, 1]` and query `[1, 0]`. -/
theorem rank_output_top5_sorted_stable_witness :
    (∀ s ∈ [songA, songB], (cosineSimilarity [1, 0] s.embedding).isSome = true) ∧
    ((rankSongs [1, 0] [songA, songB]).length = min 5 ([songA, songB] : List SongDoc).length ∧
      (rankSongs [1, 0] [songA, songB]).Pairwise simGe ∧
      (∀ x ∈ rankSongs [1, 0] [songA, songB], x.similarity.isSome = true) ∧
      ∀ a b : RankedSong, a.similarity = b.similarity →
        List.Sublist [a, b] (mapSimilarities [1, 0] [songA, songB]) →
        List.Sublist [a, b]
          (List.insertionSort simGe (mapSimilarities [1, 0] [songA, songB]))) := by
  have h : ∀ s ∈ [songA, songB], (cosineSimilarity [1, 0] s.embedding).isSome = true := by
    intro s hs
    rcases List.mem_pair.mp hs with rfl | rfl <;>
      norm_num [songA, songB, zeroSong, cosineSimilarity, dotProd, sumSq]
  exact ⟨h, rank_output_top5_sorted_stable [1, 0] [songA, songB] h⟩

end SoundClaude
